import Mathlib

/-!
Verification of the stream playback & recovery engine and the realtime
channel client of the dashboard-monitoring frontend.

The HLS player is embedded as a deterministic state machine over an
explicit timer queue, translated from the enhanced variant of
`src/lib/hlsPlayer.ts` (the repository file `src/unnamed/part_011`,
which carries the 30s freshness timeout, the exponential recovery
backoff and the four freeze-detection strategies that the specification
describes; the plain variant `src/src/lib/hlsPlayer.ts` is the same
code minus those additions).  Timers are JS `setTimeout`/`setInterval`
handles: scheduling appends a pending timer, `clearTimeout` filters it
out, and firing removes the earliest-due pending timer and runs the
Lean translation of its callback.  `Date.now()` is the machine clock
`now`, advanced when a timer fires.  Externally observable effects
(callbacks, decoder and video-element mutations) are accumulated in a
log.

The websocket client is embedded as pure functions translated from
`src/src/lib/wsClient.ts`.
-/

namespace StreamMonitor

/-- Observable actions of the player: caller callbacks plus decoder
(hls.js) and sink (video element) mutations. -/
inductive Act where
  | onFreeze : Act
  | onRecover : Act
  | onError : String → Act
  | hlsCreate : String → Act
  | hlsDestroyAct : Act
  | hlsStopLoad : Act
  | hlsStartLoad : Act
  | recoverMediaError : Act
  | videoSetSrc : String → Act
  | videoLoad : Act
  | videoPlay : Act
  | videoSeek : Nat → Act
deriving Repr, DecidableEq

/-- hls.js fatal error classification (`Hls.ErrorTypes`). -/
inductive ErrType where
  | network : ErrType
  | media : ErrType
  | other : ErrType
deriving Repr, DecidableEq

/-- The kinds of pending timers the player schedules. -/
inductive TKind where
  | freezeInterval : TKind
  | freshness : TKind
  | backoff : TKind
  | settle : TKind
  | hardReloadDelay : Bool → TKind
  | fullResetDelay : Bool → TKind
  | fullResetPlay : TKind
  | mediaGrace : Bool → TKind
deriving Repr, DecidableEq

/-- A pending JS timer: its handle, absolute due time (ms) and callback kind. -/
structure Timer where
  id : Nat
  due : Nat
  kind : TKind
deriving Repr, DecidableEq

/-- The video element fields the player reads.  `bufferedEnd` is the end of
the last buffered range (`none` when `buffered.length = 0`).  Times are in
milliseconds (the source uses seconds; thresholds 0.1/0.5/1 become
100/500/1000). -/
structure Video where
  paused : Bool
  ended : Bool
  readyState : Nat
  currentTime : Nat
  bufferedEnd : Option Nat
  src : String
deriving Repr, DecidableEq

/-- The private fields of the HlsPlayer class.  `hls` holds the url the
current decoder instance was created for; `liveDecoders` counts decoder
instances created and not yet destroyed. -/
structure PS where
  hls : Option String
  liveDecoders : Nat
  lastUpdateTime : Nat
  freezeIntervalId : Option Nat
  timeoutId : Option Nat
  recoveryAttempts : Nat
  isRecovering : Bool
  url : String
  lastVideoTime : Option Nat
  lastVideoTimeCheck : Option Nat
  consecutiveFreezeDetections : Nat
  listenersAttached : Bool
deriving Repr, DecidableEq

/-- Whole-system state: clock, player fields, video element, pending
timers, fresh timer handle counter and the log of observable actions. -/
structure Sys where
  now : Nat
  ps : PS
  video : Video
  timers : List Timer
  nextId : Nat
  log : List Act
deriving Repr, DecidableEq

def maxRecoveryAttempts : Nat := 3

def initVideo : Video :=
  { paused := true, ended := false, readyState := 0, currentTime := 0,
    bufferedEnd := none, src := "" }

def initPS : PS :=
  { hls := none, liveDecoders := 0, lastUpdateTime := 0,
    freezeIntervalId := none, timeoutId := none, recoveryAttempts := 0,
    isRecovering := false, url := "", lastVideoTime := none,
    lastVideoTimeCheck := none, consecutiveFreezeDetections := 0,
    listenersAttached := false }

def sysInit : Sys :=
  { now := 0, ps := initPS, video := initVideo, timers := [],
    nextId := 0, log := [] }

/-- Append one observable action to the log. -/
def emit (s : Sys) (a : Act) : Sys :=
  { s with log := s.log ++ [a] }

/-- `setTimeout`: append a pending timer due `d` ms from now. -/
def schedule (k : TKind) (d : Nat) (s : Sys) : Sys :=
  { s with timers := s.timers ++ [⟨s.nextId, s.now + d, k⟩],
           nextId := s.nextId + 1 }

/-- `clearTimeout`/`clearInterval` on a stored handle. -/
def cancelTimer (o : Option Nat) (s : Sys) : Sys :=
  match o with
  | none => s
  | some i => { s with timers := s.timers.filter (fun t => t.id != i) }

/-- `if (this.hls) { this.hls.destroy(); this.hls = null; }` -/
def hlsDestroyIfAny (s : Sys) : Sys :=
  match s.ps.hls with
  | some _ =>
      emit
        { s with ps := { s.ps with
            hls := none,
            liveDecoders := s.ps.liveDecoders - 1 } }
        .hlsDestroyAct
  | none => s

/-- `loadHLS(url)`: create a decoder instance, attach it to the sink and
register the `playing`/`timeupdate` listeners. -/
def loadHLS (url : String) (s : Sys) : Sys :=
  emit
    { s with ps := { s.ps with
        hls := some url,
        liveDecoders := s.ps.liveDecoders + 1,
        listenersAttached := true } }
    (.hlsCreate url)

/-- `stopFreezeDetection()`: clear the detection interval and the
freshness timeout. -/
def stopFreezeDetection (s : Sys) : Sys :=
  let s1 := cancelTimer s.ps.freezeIntervalId s
  let s2 := cancelTimer s1.ps.timeoutId s1
  { s2 with ps := { s2.ps with
      freezeIntervalId := none,
      timeoutId := none } }

/-- The `resetTimeout` closure of `startFreezeDetection`: clear any
pending freshness timer and arm a fresh 30s one. -/
def resetTimeout (s : Sys) : Sys :=
  let s1 := cancelTimer s.ps.timeoutId s
  let nid := s1.nextId
  let s2 := schedule .freshness 30000 s1
  { s2 with ps := { s2.ps with timeoutId := some nid } }

/-- `startFreezeDetection()`: reset `lastUpdateTime`, arm the freshness
timeout and the 3s detection interval. -/
def startFreezeDetection (s : Sys) : Sys :=
  let s1 := stopFreezeDetection s
  let s2 := { s1 with ps := { s1.ps with lastUpdateTime := s1.now } }
  let s3 := resetTimeout s2
  let nid := s3.nextId
  let s4 := schedule .freezeInterval 3000 s3
  { s4 with ps := { s4.ps with freezeIntervalId := some nid } }

/-- `cleanup()`: stop detection, remove video listeners, destroy the
decoder and reset the tracking fields. -/
def cleanup (s : Sys) : Sys :=
  let s1 := stopFreezeDetection s
  let s2 := { s1 with ps := { s1.ps with listenersAttached := false } }
  let s3 := hlsDestroyIfAny s2
  { s3 with ps := { s3.ps with
      lastVideoTime := none,
      lastVideoTimeCheck := none,
      consecutiveFreezeDetections := 0 } }

/-- `this.video.src = ''` -/
def clearVideoSrc (s : Sys) : Sys :=
  emit { s with video := { s.video with src := "" } } (.videoSetSrc "")

/-- `destroy()`: cleanup, clear the sink source and call `video.load()`. -/
def destroy (s : Sys) : Sys :=
  emit (clearVideoSrc (cleanup s)) .videoLoad

/-- `softReload()`: with a decoder, stop and restart segment loading;
on the native path, reload the element in place, seek back and play. -/
def softReload (s : Sys) : Sys :=
  match s.ps.hls with
  | some _ =>
      let s1 := emit (emit s .hlsStopLoad) .hlsStartLoad
      { s1 with ps := { s1.ps with lastUpdateTime := s1.now } }
  | none =>
      let ct := s.video.currentTime
      emit (emit (emit s .videoLoad) (.videoSeek ct)) .videoPlay

/-- `hardReload()`: destroy the decoder and schedule its re-creation
500 ms later, remembering whether the sink was playing. -/
def hardReload (s : Sys) : Sys :=
  let w := !s.video.paused
  schedule (.hardReloadDelay w) 500 (hlsDestroyIfAny s)

/-- `fullReset()`: full cleanup, clear the sink, and schedule a fresh
`load()` 1000 ms later. -/
def fullReset (s : Sys) : Sys :=
  let w := !s.video.paused
  let s1 := cleanup s
  let s2 := emit (clearVideoSrc s1) .videoLoad
  schedule (.fullResetDelay w) 1000 s2

/-- `attemptRecovery()` of the enhanced variant: guarded by
`isRecovering`, bumps the consecutive-freeze counter, reports terminal
failure at `maxRecoveryAttempts`, otherwise increments the attempt
counter and schedules the strategy behind an exponential backoff delay
`min(1000 * 2^(attempt-1), 10000)`. -/
def attemptRecovery (s : Sys) : Sys :=
  if s.ps.isRecovering then s else
  let s1 := { s with ps := { s.ps with
                consecutiveFreezeDetections := s.ps.consecutiveFreezeDetections + 1 } }
  if s1.ps.recoveryAttempts ≥ maxRecoveryAttempts then
    emit s1 (.onError "Stream recovery failed after multiple attempts")
  else
    let s2 := { s1 with ps := { s1.ps with
                  isRecovering := true,
                  recoveryAttempts := s1.ps.recoveryAttempts + 1 } }
    let d := min (1000 * 2 ^ (s2.ps.recoveryAttempts - 1)) 10000
    schedule .backoff d s2

/-- The backoff timer callback: pick the strategy from the attempt
counter read at fire time, then schedule the 5s settle timer that
releases `isRecovering`. -/
def backoffFire (s : Sys) : Sys :=
  let s1 :=
    if s.ps.recoveryAttempts = 1 then softReload s
    else if s.ps.recoveryAttempts = 2 then hardReload s
    else fullReset s
  schedule .settle 5000 s1

/-- The freshness (30s) timeout callback: terminal offline verdict when
more than 30s passed since the last liveness event and no recovery is
in progress. -/
def freshnessFire (s : Sys) : Sys :=
  if s.now - s.ps.lastUpdateTime > 30000 ∧ s.ps.isRecovering = false then
    destroy (emit s (.onError "Stream timeout - camera offline"))
  else s

def anomalyFreeze (s : Sys) : Sys := attemptRecovery (emit s .onFreeze)

def anomalyStall (s : Sys) : Sys := attemptRecovery s

/-- Record the current play position and its observation instant. -/
def setVideoTrack (s : Sys) (ct : Nat) : Sys :=
  { s with ps := { s.ps with
      lastVideoTime := some ct,
      lastVideoTimeCheck := some s.now } }

/-- Strategy 2 of `checkForFreeze` (stuck clock).  `inl` means the
source returned after raising an anomaly; `inr` continues to the next
strategy with the (possibly updated) state.  `some 0` counts as unset,
matching the JS falsiness of `!this.lastVideoTime`. -/
def strat2 (s : Sys) (ct : Nat) (isPlaying : Bool) : Sys ⊕ Sys :=
  if isPlaying && decide (s.video.readyState ≥ 3) then
    match s.ps.lastVideoTime with
    | none => .inr (setVideoTrack s ct)
    | some v =>
        if v = 0 then .inr (setVideoTrack s ct)
        else
          let lvc := match s.ps.lastVideoTimeCheck with
            | none => s.now
            | some 0 => s.now
            | some u => u
          let tsltc := s.now - lvc
          let td := Nat.dist ct v
          if decide (tsltc > 5000) && decide (td < 100) then .inl (anomalyFreeze s)
          else if decide (td > 500) then .inr (setVideoTrack s ct)
          else .inr s
  else .inr s

/-- Strategy 4 of `checkForFreeze` (buffer exhaustion). -/
def strat4 (s : Sys) (tsu : Nat) (ct : Nat) (isPlaying : Bool) : Sys :=
  match s.video.bufferedEnd with
  | some be =>
      if isPlaying && decide (be - ct < 1000) && decide (tsu > 5000) then
        anomalyFreeze s
      else s
  | none => s

/-- `checkForFreeze()` of the enhanced variant: evaluate the four
independent liveness strategies in order, acting on the first hit. -/
def checkForFreeze (s : Sys) : Sys :=
  if s.ps.isRecovering then s else
  let tsu := s.now - s.ps.lastUpdateTime
  let ct := s.video.currentTime
  let isPlaying := !s.video.paused && !s.video.ended &&
                   decide (s.video.readyState > 2)
  if isPlaying && decide (tsu > 8000) then anomalyFreeze s
  else
    match strat2 s ct isPlaying with
    | .inl sDone => sDone
    | .inr s2 =>
        if (s2.video.readyState = 1 ∨ s2.video.readyState = 2) ∧ tsu > 10000 then
          anomalyStall s2
        else strat4 s2 tsu ct isPlaying

/-- `load(url)` up to but excluding the decoder attachment: store the
url, tear down any prior attachment and reset the counters. -/
def loadPrep (url : String) (s : Sys) : Sys :=
  let s1 := cleanup { s with ps := { s.ps with url := url } }
  { s1 with ps := { s1.ps with
      recoveryAttempts := 0,
      consecutiveFreezeDetections := 0,
      lastVideoTime := none,
      lastVideoTimeCheck := none } }

/-- `load(url)`: teardown, counter reset, decoder attachment (the
`Hls.isSupported()` path) and detection arming. -/
def load (url : String) (s : Sys) : Sys :=
  startFreezeDetection (loadHLS url (loadPrep url s))

/-- `forceReload()`: reset the attempt counter and hard-reload
unconditionally. -/
def forceReload (s : Sys) : Sys :=
  hardReload { s with ps := { s.ps with recoveryAttempts := 0 } }

/-- The hard-reload 500 ms callback: recreate the decoder against the
current url, resume playback if it was playing, and report recovery. -/
def hardReloadFire (w : Bool) (s : Sys) : Sys :=
  let s1 := loadHLS s.ps.url s
  let s2 := if w then emit s1 .videoPlay else s1
  emit s2 .onRecover

/-- The full-reset 1000 ms callback: behave as a fresh `load()`,
optionally schedule a deferred play, and report recovery. -/
def fullResetFire (w : Bool) (s : Sys) : Sys :=
  let s1 := load s.ps.url s
  let s2 := if w then schedule .fullResetPlay 1000 s1 else s1
  emit s2 .onRecover

/-- The media-error 2s grace callback: if a decoder is still attached
and the triggering error was fatal, declare the camera offline. -/
def mediaGraceFire (f : Bool) (s : Sys) : Sys :=
  if s.ps.hls.isSome && f then
    destroy (emit s (.onError "Media error - camera offline"))
  else s

/-- The network fatal-error details that the enhanced variant treats as
terminal timeouts. -/
def networkTimeoutDetails : List String :=
  ["manifestLoadTimeOut", "manifestLoadError", "levelLoadTimeOut",
   "fragLoadTimeOut"]

/-- `handleHLSError` of the enhanced variant, restricted to the fields
it reads: fatality, error type and detail string. -/
def handleHLSError (fatal : Bool) (t : ErrType) (d : String) (s : Sys) : Sys :=
  if fatal then
    match t with
    | .network =>
        if networkTimeoutDetails.contains d then
          destroy (emit s (.onError "Stream timeout - camera offline"))
        else attemptRecovery s
    | .media =>
        let s1 := if s.ps.hls.isSome then emit s .recoverMediaError else s
        schedule (.mediaGrace fatal) 2000 s1
    | .other => destroy (emit s (.onError "Fatal stream error - camera offline"))
  else s

/-- The `FRAG_LOADED` decoder event: refresh liveness and reset both
the attempt counter and the consecutive-freeze counter. -/
def fragLoadedStep (s : Sys) : Sys :=
  if s.ps.hls.isSome then
    { s with ps := { s.ps with
        lastUpdateTime := s.now,
        recoveryAttempts := 0,
        consecutiveFreezeDetections := 0 } }
  else s

/-- The `BUFFER_APPENDING` decoder event: refresh liveness. -/
def bufferAppendingStep (s : Sys) : Sys :=
  if s.ps.hls.isSome then
    { s with ps := { s.ps with lastUpdateTime := s.now } }
  else s

/-- The `playing` video listener registered by `loadHLS`. -/
def playingStep (s : Sys) : Sys :=
  if s.ps.listenersAttached then
    { s with ps := { s.ps with
        lastUpdateTime := s.now,
        lastVideoTime := some s.video.currentTime,
        lastVideoTimeCheck := some s.now } }
  else s

/-- The `timeupdate` video listener registered by `loadHLS`. -/
def timeupdateStep (s : Sys) : Sys :=
  if s.ps.listenersAttached then
    match s.ps.lastVideoTime with
    | none => setVideoTrack s s.video.currentTime
    | some v =>
        if Nat.dist s.video.currentTime v > 500 then
          setVideoTrack s s.video.currentTime
        else s
  else s

/-- Dispatch one fired timer callback. -/
def fireKind (k : TKind) (tid : Nat) (s : Sys) : Sys :=
  match k with
  | .freezeInterval =>
      let s1 := checkForFreeze s
      let s2 := if s1.ps.isRecovering = false ∧ s1.video.readyState > 0 then
                  resetTimeout s1
                else s1
      if s2.ps.freezeIntervalId = some tid then
        { s2 with timers := s2.timers ++ [⟨tid, s2.now + 3000, .freezeInterval⟩] }
      else s2
  | .freshness => freshnessFire s
  | .backoff => backoffFire s
  | .settle => { s with ps := { s.ps with isRecovering := false } }
  | .hardReloadDelay w => hardReloadFire w s
  | .fullResetDelay w => fullResetFire w s
  | .fullResetPlay => emit s .videoPlay
  | .mediaGrace f => mediaGraceFire f s

/-- Earlier pending timer: smaller due time, ties broken by handle. -/
def timerEarlier (a b : Timer) : Bool :=
  a.due < b.due || (a.due = b.due && a.id < b.id)

/-- The earliest-due pending timer, if any. -/
def nextTimer (ts : List Timer) : Option Timer :=
  ts.foldl
    (fun acc t =>
      match acc with
      | none => some t
      | some b => if timerEarlier t b then some t else some b)
    none

/-- Fire the earliest-due pending timer at wall-clock instant `t`
(`setTimeout` guarantees only a lower bound on the firing time, so any
`t` at or past the due time is a legal firing instant).  No-op when no
timer is due by `t`. -/
def fireNextAt (t : Nat) (s : Sys) : Sys :=
  match nextTimer s.timers with
  | none => s
  | some tm =>
      if tm.due ≤ t then
        fireKind tm.kind tm.id
          { s with
            now := max s.now t,
            timers := s.timers.filter (fun x => x.id != tm.id) }
      else s

/-- External inputs to the player machine: public API calls, decoder
and video events, environment changes to the sink, and timer firings. -/
inductive Input where
  | load : String → Input
  | destroy : Input
  | forceReload : Input
  | fragLoaded : Input
  | bufferAppending : Input
  | playingEvt : Input
  | timeupdateEvt : Input
  | hlsError : Bool → ErrType → String → Input
  | setVideo : Video → Input
  | fire : Nat → Input
deriving Repr, DecidableEq

/-- One machine step.  Decoder events only reach the player while a
decoder instance is attached (its listeners die with it). -/
def step (s : Sys) (i : Input) : Sys :=
  match i with
  | .load u => load u s
  | .destroy => destroy s
  | .forceReload => forceReload s
  | .fragLoaded => fragLoadedStep s
  | .bufferAppending => bufferAppendingStep s
  | .playingEvt => playingStep s
  | .timeupdateEvt => timeupdateStep s
  | .hlsError f t d => if s.ps.hls.isSome then handleHLSError f t d s else s
  | .setVideo v => { s with video := v }
  | .fire t => fireNextAt t s

/-- Run a list of inputs. -/
def run (s : Sys) (l : List Input) : Sys := l.foldl step s

end StreamMonitor

namespace WsClient

/-!
Embedding of the realtime channel client `src/src/lib/wsClient.ts`.
Reconnect backoff is exact: JS doubles/multiplies IEEE doubles, and
`1000 * 1.5^k` stays exactly representable for the attempt range used,
so rational arithmetic is a faithful model.
-/

def maxReconnectAttempts : Nat := 10

def baseReconnectDelay : ℚ := 1000

def maxReconnectDelay : ℚ := 30000

/-- The reconnect-relevant fields of the client.  `reconnectDelay` is
the base multiplier field; the socket `onopen` handler resets it (and
the attempt counter) to their initial values. -/
structure RState where
  reconnectAttempts : Nat
  reconnectDelay : ℚ
deriving DecidableEq, Repr

def initialRState : RState := ⟨0, baseReconnectDelay⟩

/-- `scheduleReconnect()`: abandon past `maxReconnectAttempts`,
otherwise increment the counter and arm a timer after
`min(reconnectDelay * 1.5^(attempts-1), maxReconnectDelay)` ms.
Returns the armed delay together with the new state, or `none` when
reconnection is abandoned. -/
def scheduleReconnect (s : RState) : Option (ℚ × RState) :=
  if s.reconnectAttempts ≥ maxReconnectAttempts then none
  else
    let a := s.reconnectAttempts + 1
    some (min (s.reconnectDelay * (3 / 2 : ℚ) ^ (a - 1)) maxReconnectDelay,
          ⟨a, s.reconnectDelay⟩)

/-- State after `n` consecutive socket closes with no intervening
successful open (each close invokes `scheduleReconnect`). -/
def stateAfterCloses : Nat → RState
  | 0 => initialRState
  | n + 1 =>
      match scheduleReconnect (stateAfterCloses n) with
      | some p => p.2
      | none => stateAfterCloses n

/-- The delay armed on the k-th consecutive close (`none` when
reconnection has been abandoned). -/
def delayOnClose (k : Nat) : Option ℚ :=
  (scheduleReconnect (stateAfterCloses (k - 1))).map Prod.fst

/-- Inbound event envelope types recognized by the client. -/
inductive WSEventType where
  | connected : WSEventType
  | camera_status : WSEventType
  | stream_update : WSEventType
  | pong : WSEventType
  | error : WSEventType
deriving DecidableEq, Repr

/-- A parsed inbound event envelope. -/
structure WSEvent where
  type : WSEventType
  data : String
deriving DecidableEq, Repr

/-- Handlers are identified by registration tokens; their behavior is a
function that either returns or throws (`Except.error`). -/
abbrev Handler := Nat

/-- The per-handler `try { handler(message) } catch { console.error }`
wrapper of the `onmessage` dispatch loop: a throw is logged and
swallowed. -/
def catchLog (r : Except String Unit) : Except String Unit :=
  match r with
  | .ok _ => .ok ()
  | .error _ => .ok ()

/-- JS `Array.prototype.forEach` / `Set.forEach` semantics with respect
to exceptions: invoke the callback on each element in order; an
uncaught throw aborts the iteration and propagates.  Returns the list
of elements whose callback was invoked and the uncaught exception, if
any. -/
def forEachInvoke (f : Handler → Except String Unit) :
    List Handler → List Handler × Option String
  | [] => ([], none)
  | h :: t =>
      match f h with
      | .ok _ =>
          let r := forEachInvoke f t
          (h :: r.1, r.2)
      | .error e => ([h], some e)

/-- The `onmessage` handler: a payload that fails to parse is logged
and dropped (no delivery); a well-formed envelope is dispatched to
every current subscriber in insertion order, each invocation wrapped in
its own try/catch. -/
def onMessageDeliver (parsed : Option WSEvent) (hs : List Handler)
    (beh : Handler → WSEvent → Except String Unit) :
    List Handler × Option String :=
  match parsed with
  | none => ([], none)
  | some e => forEachInvoke (fun h => catchLog (beh h e)) hs

/-- The lifecycle fields of the client relevant to `disconnect()` and
the `onclose` handler. -/
structure CState where
  wsLive : Bool
  handlers : List Handler
  reconnectAttempts : Nat
  heartbeatActive : Bool
  reconnectPending : Bool
  isIntentionallyClosed : Bool
deriving DecidableEq, Repr

/-- Observable lifecycle actions of the client. -/
inductive CAct where
  | socketClose : CAct
  | notifyState : Bool → CAct
  | armReconnect : CAct
deriving DecidableEq, Repr

/-- Initial client state right after construction. -/
def cInit : CState :=
  { wsLive := false, handlers := [], reconnectAttempts := 0,
    heartbeatActive := false, reconnectPending := false,
    isIntentionallyClosed := false }

/-- `on(handler)`: register a subscriber (JS `Set` preserves insertion
order). -/
def onRegister (h : Handler) (s : CState) : CState :=
  { s with handlers := s.handlers ++ [h] }

/-- `disconnect()`: set the terminal flag, cancel the heartbeat and any
pending reconnect timer, close and null the socket, and notify
`onStateChange(false)`.  The handler set is left untouched. -/
def disconnect (s : CState) : CState × List CAct :=
  let s1 := { s with
    isIntentionallyClosed := true,
    heartbeatActive := false,
    reconnectPending := false }
  let p := if s1.wsLive then ({ s1 with wsLive := false }, [CAct.socketClose])
           else (s1, ([] : List CAct))
  (p.1, p.2 ++ [CAct.notifyState false])

/-- The socket `onclose` handler: stop the heartbeat, notify, and
schedule a reconnect unless the close was intentional or the attempt
budget is exhausted. -/
def onCloseStep (s : CState) : CState × List CAct :=
  let s1 := { s with heartbeatActive := false }
  if s1.isIntentionallyClosed then (s1, [CAct.notifyState false])
  else if s1.reconnectAttempts ≥ maxReconnectAttempts then
    (s1, [CAct.notifyState false])
  else
    ({ s1 with
        reconnectAttempts := s1.reconnectAttempts + 1,
        reconnectPending := true },
     [CAct.notifyState false, CAct.armReconnect])

end WsClient

namespace StreamMonitor

/-- At-most-one-attachment invariant: the count of live decoder
instances matches the attachment field, hence is at most one. -/
def Inv2 (s : Sys) : Prop :=
  s.ps.liveDecoders = (if s.ps.hls.isSome then 1 else 0)

/-- A playing sink with buffered data: not paused, enough readiness,
mid-stream position, no buffered-range information. -/
def playingVideo : Video :=
  { paused := false, ended := false, readyState := 3, currentTime := 5000,
    bufferedEnd := none, src := "stream" }

/-- A paused sink that still holds decoded data (readiness 3): the
detection cycle sees an active stream and keeps rearming the freshness
timeout. -/
def pausedReadyVideo : Video :=
  { paused := true, ended := false, readyState := 3, currentTime := 5000,
    bufferedEnd := none, src := "stream" }

/-- A session already at the attempt bound, not mid-recovery, with a
live attachment: the configuration the exhaustion path guards
against. -/
def sExhausted : Sys :=
  { now := 100000,
    ps := { hls := some "u", liveDecoders := 1, lastUpdateTime := 99000,
            freezeIntervalId := none, timeoutId := none,
            recoveryAttempts := 3, isRecovering := false, url := "u",
            lastVideoTime := none, lastVideoTimeCheck := none,
            consecutiveFreezeDetections := 0, listenersAttached := true },
    video := playingVideo, timers := [], nextId := 0, log := [] }

/-- A fresh session on `"u"` whose sink then reports a paused element
holding data: from here no liveness-bearing event ever arrives. -/
def c3base : Sys := run sysInit [.load "u", .setVideo pausedReadyVideo]

/-- Thirteen detection-cycle firings at their exact due instants
(3s, 6s, ..., 39s) with no liveness event in between. -/
def c3run : Sys :=
  (List.range 13).foldl (fun s i => fireNextAt (3000 * (i + 1)) s) c3base

/-- A session 100s past its last liveness event, attempt counter 0 and
no recovery in progress, whose freshness timer is firing. -/
def c3wit : Sys :=
  { sExhausted with ps := { sExhausted.ps with
      recoveryAttempts := 0, lastUpdateTime := 0 } }

/-- Fresh session on `"u"`, playing sink, then three detection cycles;
the third (at 9s with no liveness event since 0) detects a freeze and
schedules recovery attempt 1 behind its 1s backoff. -/
def c5beforeDestroy : Sys :=
  run sysInit [.load "u", .setVideo playingVideo, .fire 3000, .fire 6000,
               .fire 9000]

/-- `destroy()` called while the attempt-1 backoff timer is pending. -/
def c5afterDestroy : Sys := step c5beforeDestroy .destroy

/-- The pending backoff timer fires after the destroy. -/
def c5fired : Sys := fireNextAt 10000 c5afterDestroy

/-- An attached, idle session with attempt counter 0. -/
def c6s : Sys :=
  { sExhausted with ps := { sExhausted.ps with recoveryAttempts := 0 } }

/-- An attached, idle session with attempt counter 1 (about to enter
attempt 2). -/
def sA1 : Sys :=
  { sExhausted with ps := { sExhausted.ps with recoveryAttempts := 1 } }

/-- A session whose attempt counter reads 2 at backoff-fire time. -/
def sA2 : Sys :=
  { sExhausted with ps := { sExhausted.ps with
      recoveryAttempts := 2, isRecovering := true } }

/-- C10 chain: a delivered fragment at the exhausted session. -/
def c10a : Sys := step sExhausted .fragLoaded

/-- ... then a detected anomaly enters recovery attempt 1 ... -/
def c10b : Sys := attemptRecovery c10a

/-- ... whose backoff fires (soft reload executes) ... -/
def c10c : Sys := fireNextAt 101000 c10b

/-- ... the settle timer releases `isRecovering` ... -/
def c10d : Sys := fireNextAt 106000 c10c

/-- ... a second anomaly enters attempt 2 ... -/
def c10e : Sys := attemptRecovery c10d

/-- ... its backoff fires (hard reload: decoder destroyed) ... -/
def c10f : Sys := fireNextAt 108000 c10e

/-- ... the hard-reload delay re-creates the decoder ... -/
def c10g : Sys := fireNextAt 108500 c10f

/-- ... the settle timer releases `isRecovering` ... -/
def c10h : Sys := fireNextAt 113000 c10g

/-- ... and a third anomaly enters attempt 3. -/
def c10i : Sys := attemptRecovery c10h

end StreamMonitor

namespace WsClient

lemma stateAfterCloses_of_le (k : Nat) (hk : k ≤ 10) :
    stateAfterCloses k = ⟨k, baseReconnectDelay⟩ := by
  induction k with
  | zero => rfl
  | succ n ih =>
      have hn : n ≤ 10 := by omega
      rw [stateAfterCloses, ih hn]
      rw [scheduleReconnect]
      rw [if_neg (by simp [maxReconnectAttempts]; omega)]

lemma stateAfterCloses_of_ge (n : Nat) :
    stateAfterCloses (10 + n) = ⟨10, baseReconnectDelay⟩ := by
  induction n with
  | zero => exact stateAfterCloses_of_le 10 le_rfl
  | succ m ih =>
      have h : 10 + (m + 1) = (10 + m) + 1 := by omega
      rw [h, stateAfterCloses, ih]
      rw [scheduleReconnect]
      rw [if_pos (by simp [maxReconnectAttempts])]

/-- C7: for consecutive socket closes without an intervening successful
open, the k-th close arms a reconnect after
`min(1000 * 1.5^(k-1), 30000)` ms; that delay is non-decreasing in k;
and no reconnect is armed after attempt 10. -/
theorem reconnect_backoff_policy :
    (∀ k : Nat, 1 ≤ k → k ≤ 10 →
        delayOnClose k = some (min (1000 * (3 / 2 : ℚ) ^ (k - 1)) 30000)) ∧
    (∀ j k : Nat, 1 ≤ j → j ≤ k → k ≤ 10 →
        min (1000 * (3 / 2 : ℚ) ^ (j - 1)) 30000 ≤
          min (1000 * (3 / 2 : ℚ) ^ (k - 1)) 30000) ∧
    (∀ k : Nat, 10 < k → delayOnClose k = none) := by
  refine ⟨?_, ?_, ?_⟩
  · intro k hk1 hk10
    rw [delayOnClose, stateAfterCloses_of_le (k - 1) (by omega)]
    rw [scheduleReconnect]
    rw [if_neg (by simp [maxReconnectAttempts]; omega)]
    simp [baseReconnectDelay, maxReconnectDelay]
  · intro j k hj hjk hk
    have hp : (3 / 2 : ℚ) ^ (j - 1) ≤ (3 / 2 : ℚ) ^ (k - 1) := by
      apply pow_le_pow_right₀ (by norm_num) (by omega)
    exact min_le_min (mul_le_mul_of_nonneg_left hp (by norm_num)) le_rfl
  · intro k hk
    obtain ⟨n, hn⟩ : ∃ n, k - 1 = 10 + n := ⟨k - 11, by omega⟩
    rw [delayOnClose, hn, stateAfterCloses_of_ge]
    rw [scheduleReconnect]
    rw [if_pos (by simp [maxReconnectAttempts])]
    rfl

/-- Witness for C7 at concrete attempt indices. -/
theorem reconnect_backoff_policy_witness :
    delayOnClose 3 = some (min (1000 * (3 / 2 : ℚ) ^ (3 - 1)) 30000) ∧
    min (1000 * (3 / 2 : ℚ) ^ (2 - 1)) 30000 ≤
      min (1000 * (3 / 2 : ℚ) ^ (7 - 1)) 30000 ∧
    delayOnClose 11 = none :=
  ⟨reconnect_backoff_policy.1 3 (by norm_num) (by norm_num),
   reconnect_backoff_policy.2.1 2 7 (by norm_num) (by norm_num) (by norm_num),
   reconnect_backoff_policy.2.2 11 (by norm_num)⟩

lemma catchLog_eq (r : Except String Unit) : catchLog r = .ok () := by
  cases r <;> rfl

/-- C8: a well-formed inbound event is delivered synchronously to every
current subscriber in subscription order, and a throwing handler does
not prevent delivery to the remaining subscribers (the per-handler
try/catch swallows the throw, so the dispatch loop never aborts). -/
theorem subscriber_isolation (e : WSEvent) (hs : List Handler)
    (beh : Handler → WSEvent → Except String Unit) :
    (onMessageDeliver (some e) hs beh).1 = hs ∧
    (onMessageDeliver (some e) hs beh).2 = none := by
  rw [onMessageDeliver]
  induction hs with
  | nil => exact ⟨rfl, rfl⟩
  | cons h t ih =>
      rw [forEachInvoke, catchLog_eq]
      exact ⟨by simp [ih.1], by simp [ih.2]⟩

/-- C9 counterexample: after `disconnect()` the subscriber set is NOT
empty — `disconnect` never clears `handlers`, so a previously
registered handler is still subscribed. -/
theorem disconnect_subscribers_counterexample :
    (disconnect (onRegister 0 { cInit with wsLive := true })).1.handlers = [0] ∧
    ([0] : List Handler) ≠ [] := by
  constructor
  · rfl
  · decide

/-- C9 amended: after `disconnect()` the heartbeat and any pending
reconnect timer are canceled, the socket is closed, the terminal flag
is set so a subsequent socket close schedules no reconnect, and
`onStateChange(false)` is notified; the subscriber set is left exactly
as it was (it is not cleared). -/
theorem disconnect_terminal_amended (s : CState) :
    (disconnect s).1.heartbeatActive = false ∧
    (disconnect s).1.reconnectPending = false ∧
    (disconnect s).1.wsLive = false ∧
    (disconnect s).1.isIntentionallyClosed = true ∧
    (disconnect s).1.handlers = s.handlers ∧
    CAct.notifyState false ∈ (disconnect s).2 ∧
    (onCloseStep (disconnect s).1).2 = [CAct.notifyState false] := by
  by_cases h : s.wsLive <;>
    simp [disconnect, onCloseStep, h]

end WsClient

namespace StreamMonitor

@[simp] lemma emit_ps (s : Sys) (a : Act) : (emit s a).ps = s.ps := rfl

@[simp] lemma emit_now (s : Sys) (a : Act) : (emit s a).now = s.now := rfl

@[simp] lemma emit_video (s : Sys) (a : Act) : (emit s a).video = s.video := rfl

@[simp] lemma emit_timers (s : Sys) (a : Act) : (emit s a).timers = s.timers := rfl

@[simp] lemma emit_log (s : Sys) (a : Act) : (emit s a).log = s.log ++ [a] := rfl

@[simp] lemma schedule_ps (k : TKind) (d : Nat) (s : Sys) :
    (schedule k d s).ps = s.ps := rfl

@[simp] lemma schedule_now (k : TKind) (d : Nat) (s : Sys) :
    (schedule k d s).now = s.now := rfl

@[simp] lemma schedule_video (k : TKind) (d : Nat) (s : Sys) :
    (schedule k d s).video = s.video := rfl

@[simp] lemma schedule_log (k : TKind) (d : Nat) (s : Sys) :
    (schedule k d s).log = s.log := rfl

@[simp] lemma schedule_timers (k : TKind) (d : Nat) (s : Sys) :
    (schedule k d s).timers = s.timers ++ [⟨s.nextId, s.now + d, k⟩] := rfl

@[simp] lemma cancelTimer_ps (o : Option Nat) (s : Sys) :
    (cancelTimer o s).ps = s.ps := by cases o <;> rfl

@[simp] lemma cancelTimer_now (o : Option Nat) (s : Sys) :
    (cancelTimer o s).now = s.now := by cases o <;> rfl

@[simp] lemma cancelTimer_video (o : Option Nat) (s : Sys) :
    (cancelTimer o s).video = s.video := by cases o <;> rfl

@[simp] lemma cancelTimer_log (o : Option Nat) (s : Sys) :
    (cancelTimer o s).log = s.log := by cases o <;> rfl

lemma ra_hlsDestroyIfAny (s : Sys) :
    (hlsDestroyIfAny s).ps.recoveryAttempts = s.ps.recoveryAttempts := by
  cases h : s.ps.hls <;> simp [hlsDestroyIfAny, h]

lemma ra_loadHLS (u : String) (s : Sys) :
    (loadHLS u s).ps.recoveryAttempts = s.ps.recoveryAttempts := by
  simp [loadHLS]

lemma ra_stopFreezeDetection (s : Sys) :
    (stopFreezeDetection s).ps.recoveryAttempts = s.ps.recoveryAttempts := by
  simp [stopFreezeDetection]

lemma ra_resetTimeout (s : Sys) :
    (resetTimeout s).ps.recoveryAttempts = s.ps.recoveryAttempts := by
  simp [resetTimeout]

lemma ra_startFreezeDetection (s : Sys) :
    (startFreezeDetection s).ps.recoveryAttempts = s.ps.recoveryAttempts := by
  simp [startFreezeDetection, ra_resetTimeout, ra_stopFreezeDetection]

lemma ra_cleanup (s : Sys) :
    (cleanup s).ps.recoveryAttempts = s.ps.recoveryAttempts := by
  simp [cleanup, ra_hlsDestroyIfAny, ra_stopFreezeDetection]

lemma ra_clearVideoSrc (s : Sys) :
    (clearVideoSrc s).ps.recoveryAttempts = s.ps.recoveryAttempts := by
  simp [clearVideoSrc]

lemma ra_destroy (s : Sys) :
    (destroy s).ps.recoveryAttempts = s.ps.recoveryAttempts := by
  simp [destroy, ra_clearVideoSrc, ra_cleanup]

lemma ra_softReload (s : Sys) :
    (softReload s).ps.recoveryAttempts = s.ps.recoveryAttempts := by
  cases h : s.ps.hls <;> simp [softReload, h]

lemma ra_hardReload (s : Sys) :
    (hardReload s).ps.recoveryAttempts = s.ps.recoveryAttempts := by
  simp [hardReload, ra_hlsDestroyIfAny]

lemma ra_fullReset (s : Sys) :
    (fullReset s).ps.recoveryAttempts = s.ps.recoveryAttempts := by
  simp [fullReset, ra_clearVideoSrc, ra_cleanup]

lemma ra_setVideoTrack (s : Sys) (ct : Nat) :
    (setVideoTrack s ct).ps.recoveryAttempts = s.ps.recoveryAttempts := rfl

lemma ra_attemptRecovery (s : Sys) (h : s.ps.recoveryAttempts ≤ 3) :
    (attemptRecovery s).ps.recoveryAttempts ≤ 3 := by
  unfold attemptRecovery maxRecoveryAttempts
  dsimp only
  split
  · exact h
  · split
    · simpa using h
    · rename_i hng
      have hlt : s.ps.recoveryAttempts < 3 := by simpa using hng
      simp only [schedule_ps]
      exact Nat.succ_le_of_lt hlt

lemma ra_anomalyFreeze (s : Sys) (h : s.ps.recoveryAttempts ≤ 3) :
    (anomalyFreeze s).ps.recoveryAttempts ≤ 3 := by
  unfold anomalyFreeze
  exact ra_attemptRecovery _ (by simpa using h)

lemma ra_anomalyStall (s : Sys) (h : s.ps.recoveryAttempts ≤ 3) :
    (anomalyStall s).ps.recoveryAttempts ≤ 3 :=
  ra_attemptRecovery _ h

lemma ra_strat2_inl (s : Sys) (ct : Nat) (b : Bool)
    (h : s.ps.recoveryAttempts ≤ 3) (r : Sys) (heq : strat2 s ct b = .inl r) :
    r.ps.recoveryAttempts ≤ 3 := by
  unfold strat2 at heq
  dsimp only at heq
  split at heq
  · split at heq
    · exact absurd heq (by simp)
    · split at heq
      · exact absurd heq (by simp)
      · split at heq
        · cases heq
          exact ra_anomalyFreeze _ h
        · split at heq
          · exact absurd heq (by simp)
          · exact absurd heq (by simp)
  · exact absurd heq (by simp)

lemma ra_strat2_inr (s : Sys) (ct : Nat) (b : Bool)
    (r : Sys) (heq : strat2 s ct b = .inr r) :
    r.ps.recoveryAttempts = s.ps.recoveryAttempts := by
  unfold strat2 at heq
  dsimp only at heq
  split at heq
  · split at heq
    · cases heq; rfl
    · split at heq
      · cases heq; rfl
      · split at heq
        · exact absurd heq (by simp)
        · split at heq
          · cases heq; rfl
          · cases heq; rfl
  · cases heq; rfl

lemma ra_strat4 (s : Sys) (tsu ct : Nat) (b : Bool)
    (h : s.ps.recoveryAttempts ≤ 3) :
    (strat4 s tsu ct b).ps.recoveryAttempts ≤ 3 := by
  unfold strat4
  rcases hbe : s.video.bufferedEnd with _ | be <;> dsimp only
  · exact h
  · split
    · exact ra_anomalyFreeze _ h
    · exact h

lemma ra_checkForFreeze (s : Sys) (h : s.ps.recoveryAttempts ≤ 3) :
    (checkForFreeze s).ps.recoveryAttempts ≤ 3 := by
  unfold checkForFreeze
  dsimp only
  split
  · exact h
  · split
    · exact ra_anomalyFreeze _ h
    · rcases heq : strat2 s s.video.currentTime
        (!s.video.paused && !s.video.ended && decide (s.video.readyState > 2))
        with r | r <;> dsimp only
      · exact ra_strat2_inl s _ _ h r heq
      · have hr : r.ps.recoveryAttempts ≤ 3 := by
          rw [ra_strat2_inr s _ _ r heq]; exact h
        split
        · exact ra_anomalyStall _ hr
        · exact ra_strat4 _ _ _ _ hr

lemma ra_load (u : String) (s : Sys) : (load u s).ps.recoveryAttempts = 0 := by
  unfold load loadPrep
  rw [ra_startFreezeDetection, ra_loadHLS]

lemma ra_forceReload (s : Sys) : (forceReload s).ps.recoveryAttempts = 0 := by
  unfold forceReload
  rw [ra_hardReload]

lemma ra_backoffFire (s : Sys) (h : s.ps.recoveryAttempts ≤ 3) :
    (backoffFire s).ps.recoveryAttempts ≤ 3 := by
  unfold backoffFire
  simp only [schedule_ps]
  split
  · rw [ra_softReload]; exact h
  · split
    · rw [ra_hardReload]; exact h
    · rw [ra_fullReset]; exact h

lemma ra_freshnessFire (s : Sys) (h : s.ps.recoveryAttempts ≤ 3) :
    (freshnessFire s).ps.recoveryAttempts ≤ 3 := by
  unfold freshnessFire
  split
  · rw [ra_destroy]; simpa using h
  · exact h

lemma ra_hardReloadFire (w : Bool) (s : Sys) (h : s.ps.recoveryAttempts ≤ 3) :
    (hardReloadFire w s).ps.recoveryAttempts ≤ 3 := by
  unfold hardReloadFire
  cases w <;> simp [ra_loadHLS] <;> exact h

lemma ra_fullResetFire (w : Bool) (s : Sys) :
    (fullResetFire w s).ps.recoveryAttempts = 0 := by
  unfold fullResetFire
  cases w <;> simp [ra_load]

lemma ra_mediaGraceFire (f : Bool) (s : Sys) (h : s.ps.recoveryAttempts ≤ 3) :
    (mediaGraceFire f s).ps.recoveryAttempts ≤ 3 := by
  unfold mediaGraceFire
  split
  · rw [ra_destroy]; simpa using h
  · exact h

lemma ra_handleHLSError (f : Bool) (t : ErrType) (d : String) (s : Sys)
    (h : s.ps.recoveryAttempts ≤ 3) :
    (handleHLSError f t d s).ps.recoveryAttempts ≤ 3 := by
  unfold handleHLSError
  split
  · split
    · split
      · rw [ra_destroy]; simpa using h
      · exact ra_attemptRecovery _ h
    · simp only [schedule_ps]
      split <;> simpa using h
    · rw [ra_destroy]; simpa using h
  · exact h

lemma ra_fireKind (k : TKind) (tid : Nat) (s : Sys)
    (h : s.ps.recoveryAttempts ≤ 3) :
    (fireKind k tid s).ps.recoveryAttempts ≤ 3 := by
  cases k with
  | freezeInterval =>
      dsimp only [fireKind]
      have h1 := ra_checkForFreeze s h
      have h2 : (resetTimeout (checkForFreeze s)).ps.recoveryAttempts ≤ 3 := by
        rw [ra_resetTimeout]; exact h1
      split
      · split
        · exact h2
        · exact h2
      · split
        · exact h1
        · exact h1
  | freshness => exact ra_freshnessFire s h
  | backoff => exact ra_backoffFire s h
  | settle => dsimp only [fireKind]; exact h
  | hardReloadDelay w => exact ra_hardReloadFire w s h
  | fullResetDelay w => dsimp only [fireKind]; rw [ra_fullResetFire]; omega
  | fullResetPlay => dsimp only [fireKind]; simpa using h
  | mediaGrace f => exact ra_mediaGraceFire f s h

lemma ra_fireNextAt (t : Nat) (s : Sys) (h : s.ps.recoveryAttempts ≤ 3) :
    (fireNextAt t s).ps.recoveryAttempts ≤ 3 := by
  unfold fireNextAt
  split
  · exact h
  · split
    · exact ra_fireKind _ _ _ h
    · exact h

lemma ra_step (s : Sys) (i : Input) (h : s.ps.recoveryAttempts ≤ 3) :
    (step s i).ps.recoveryAttempts ≤ 3 := by
  cases i with
  | load u => rw [step, ra_load]; omega
  | destroy => rw [step, ra_destroy]; exact h
  | forceReload => rw [step, ra_forceReload]; omega
  | fragLoaded =>
      rw [step]
      unfold fragLoadedStep
      split
      · simp
      · exact h
  | bufferAppending =>
      rw [step]
      unfold bufferAppendingStep
      split
      · simpa using h
      · exact h
  | playingEvt =>
      rw [step]
      unfold playingStep
      split
      · simpa using h
      · exact h
  | timeupdateEvt =>
      rw [step]
      unfold timeupdateStep
      split
      · rcases hlv : s.ps.lastVideoTime with _ | v <;> dsimp only
        · simpa [setVideoTrack] using h
        · split
          · simpa [setVideoTrack] using h
          · exact h
      · exact h
  | hlsError f t d =>
      rw [step]
      split
      · exact ra_handleHLSError f t d s h
      · exact h
  | setVideo v => simpa [step] using h
  | fire t => exact ra_fireNextAt t s h

lemma ra_run (s : Sys) (l : List Input) (h : s.ps.recoveryAttempts ≤ 3) :
    (run s l).ps.recoveryAttempts ≤ 3 := by
  induction l generalizing s with
  | nil => exact h
  | cons i t ih => exact ih (step s i) (ra_step s i h)

lemma attemptRecovery_exhausted (s : Sys)
    (h3 : s.ps.recoveryAttempts = 3) (hr : s.ps.isRecovering = false) :
    attemptRecovery s =
      emit
        { s with ps := { s.ps with
            consecutiveFreezeDetections := s.ps.consecutiveFreezeDetections + 1 } }
        (.onError "Stream recovery failed after multiple attempts") := by
  unfold attemptRecovery maxRecoveryAttempts
  rw [if_neg (by simp [hr])]
  rw [if_pos (by simp [h3])]

/-- C1: over every input sequence the recovery attempt counter never
exceeds 3; and in a session that has reached 3 attempts and is not
mid-recovery, a further detected anomaly (which reaches
`attemptRecovery` precisely because `checkForFreeze` only forwards
anomalies when `isRecovering` is false) emits
`onError('Stream recovery failed after multiple attempts')` and nothing
else: no remediation action is logged, no timer is scheduled, the
attachment and the sink are untouched, and the session is not
destroyed. -/
theorem recovery_attempt_bound :
    (∀ (s : Sys) (l : List Input), s.ps.recoveryAttempts ≤ 3 →
        (run s l).ps.recoveryAttempts ≤ 3) ∧
    (∀ s : Sys, s.ps.recoveryAttempts = 3 → s.ps.isRecovering = false →
        (attemptRecovery s).log =
            s.log ++ [.onError "Stream recovery failed after multiple attempts"] ∧
        (attemptRecovery s).timers = s.timers ∧
        (attemptRecovery s).ps.hls = s.ps.hls ∧
        (attemptRecovery s).video = s.video ∧
        (attemptRecovery s).ps.recoveryAttempts = 3) := by
  refine ⟨ra_run, ?_⟩
  intro s h3 hr
  rw [attemptRecovery_exhausted s h3 hr]
  simp [h3]

/-- Witness for C1: a concrete run from a fresh session, and the
exhaustion behavior at a concrete exhausted session. -/
theorem recovery_attempt_bound_witness :
    (run sysInit [.load "u", .setVideo playingVideo, .fire 3000,
                  .fragLoaded]).ps.recoveryAttempts ≤ 3 ∧
    ((attemptRecovery sExhausted).log =
        sExhausted.log ++ [.onError "Stream recovery failed after multiple attempts"] ∧
     (attemptRecovery sExhausted).timers = sExhausted.timers ∧
     (attemptRecovery sExhausted).ps.hls = sExhausted.ps.hls ∧
     (attemptRecovery sExhausted).video = sExhausted.video ∧
     (attemptRecovery sExhausted).ps.recoveryAttempts = 3) :=
  ⟨recovery_attempt_bound.1 sysInit _ (by decide),
   recovery_attempt_bound.2 sExhausted (by decide) (by decide)⟩

end StreamMonitor

namespace StreamMonitor

@[simp] lemma stopFreezeDetection_hls (s : Sys) :
    (stopFreezeDetection s).ps.hls = s.ps.hls := by
  simp [stopFreezeDetection]

@[simp] lemma stopFreezeDetection_live (s : Sys) :
    (stopFreezeDetection s).ps.liveDecoders = s.ps.liveDecoders := by
  simp [stopFreezeDetection]

@[simp] lemma startFreezeDetection_hls (s : Sys) :
    (startFreezeDetection s).ps.hls = s.ps.hls := by
  simp [startFreezeDetection, resetTimeout]

@[simp] lemma startFreezeDetection_live (s : Sys) :
    (startFreezeDetection s).ps.liveDecoders = s.ps.liveDecoders := by
  simp [startFreezeDetection, resetTimeout]

lemma hlsDestroyIfAny_hls (s : Sys) : (hlsDestroyIfAny s).ps.hls = none := by
  cases hh : s.ps.hls <;> simp [hlsDestroyIfAny, hh]

lemma hlsDestroyIfAny_fid (s : Sys) :
    (hlsDestroyIfAny s).ps.freezeIntervalId = s.ps.freezeIntervalId := by
  cases hh : s.ps.hls <;> simp [hlsDestroyIfAny, hh]

lemma hlsDestroyIfAny_tid (s : Sys) :
    (hlsDestroyIfAny s).ps.timeoutId = s.ps.timeoutId := by
  cases hh : s.ps.hls <;> simp [hlsDestroyIfAny, hh]

lemma hlsDestroyIfAny_timers (s : Sys) :
    (hlsDestroyIfAny s).timers = s.timers := by
  cases hh : s.ps.hls <;> simp [hlsDestroyIfAny, hh]

lemma hlsDestroyIfAny_spec (s : Sys) (h : Inv2 s) :
    (hlsDestroyIfAny s).ps.hls = none ∧
    (hlsDestroyIfAny s).ps.liveDecoders = 0 := by
  unfold Inv2 at h
  cases hh : s.ps.hls with
  | none =>
      rw [hh] at h
      simp at h
      simp [hlsDestroyIfAny, hh, h]
  | some u =>
      rw [hh] at h
      simp at h
      simp [hlsDestroyIfAny, hh, h]

lemma cleanup_spec (s : Sys) (h : Inv2 s) :
    (cleanup s).ps.hls = none ∧ (cleanup s).ps.liveDecoders = 0 := by
  unfold cleanup
  have hX : Inv2 { stopFreezeDetection s with
      ps := { (stopFreezeDetection s).ps with listenersAttached := false } } := by
    unfold Inv2 at h ⊢
    simpa using h
  have hres := hlsDestroyIfAny_spec _ hX
  exact ⟨hres.1, hres.2⟩

lemma cleanup_hls (s : Sys) : (cleanup s).ps.hls = none := by
  unfold cleanup
  exact hlsDestroyIfAny_hls _

lemma destroy_hls (s : Sys) : (destroy s).ps.hls = none := by
  unfold destroy clearVideoSrc
  simpa using cleanup_hls s

lemma destroy_fid (s : Sys) : (destroy s).ps.freezeIntervalId = none := by
  unfold destroy clearVideoSrc cleanup
  simp [hlsDestroyIfAny_fid, stopFreezeDetection]

lemma destroy_tid (s : Sys) : (destroy s).ps.timeoutId = none := by
  unfold destroy clearVideoSrc cleanup
  simp [hlsDestroyIfAny_tid, stopFreezeDetection]

lemma destroy_log_append (s : Sys) : ∃ t, (destroy s).log = s.log ++ t := by
  unfold destroy clearVideoSrc cleanup
  cases hh : s.ps.hls with
  | none =>
      refine ⟨[.videoSetSrc "", .videoLoad], ?_⟩
      simp [hlsDestroyIfAny, hh, stopFreezeDetection]
  | some u =>
      refine ⟨[.hlsDestroyAct, .videoSetSrc "", .videoLoad], ?_⟩
      simp [hlsDestroyIfAny, hh, stopFreezeDetection]

lemma mem_cancelTimer (o : Option Nat) (s : Sys) (tm : Timer) :
    tm ∈ (cancelTimer o s).timers ↔ tm ∈ s.timers ∧ o ≠ some tm.id := by
  cases o with
  | none => simp [cancelTimer]
  | some i =>
      simp only [cancelTimer, List.mem_filter, bne_iff_ne, ne_eq,
        Option.some.injEq]
      constructor
      · rintro ⟨h1, h2⟩
        exact ⟨h1, fun hc => h2 hc.symm⟩
      · rintro ⟨h1, h2⟩
        exact ⟨h1, fun hc => h2 hc.symm⟩

lemma destroy_timers_eq (s : Sys) :
    (destroy s).timers =
      (cancelTimer s.ps.timeoutId (cancelTimer s.ps.freezeIntervalId s)).timers := by
  unfold destroy clearVideoSrc cleanup stopFreezeDetection
  simp [hlsDestroyIfAny_timers]

lemma attemptRecovery_step (s : Sys) (hr : s.ps.isRecovering = false)
    (hlt : s.ps.recoveryAttempts < 3) :
    attemptRecovery s =
      schedule .backoff (min (1000 * 2 ^ s.ps.recoveryAttempts) 10000)
        { s with ps := { s.ps with
            consecutiveFreezeDetections := s.ps.consecutiveFreezeDetections + 1,
            isRecovering := true,
            recoveryAttempts := s.ps.recoveryAttempts + 1 } } := by
  unfold attemptRecovery maxRecoveryAttempts
  rw [if_neg (by simp [hr])]
  rw [if_neg (by simp; omega)]
  rfl

/-- C2: each `load(url)` first tears down any existing decoder
attachment (right after `loadPrep` the live-decoder count is zero and
no attachment exists), then creates exactly one; the
one-live-attachment invariant is preserved across every sequence of
`load()` calls; and `load(urlA)` followed by `load(urlB)` leaves
exactly one final attachment, to `urlB`. -/
theorem at_most_one_attachment :
    (∀ (s : Sys) (u : String), Inv2 s →
        (loadPrep u s).ps.hls = none ∧
        (loadPrep u s).ps.liveDecoders = 0 ∧
        (load u s).ps.hls = some u ∧
        (load u s).ps.liveDecoders = 1 ∧
        Inv2 (load u s)) ∧
    (∀ (s : Sys) (urls : List String), Inv2 s →
        Inv2 (urls.foldl (fun a u => load u a) s)) ∧
    (∀ a b : String,
        (load b (load a sysInit)).ps.hls = some b ∧
        (load b (load a sysInit)).ps.liveDecoders = 1) := by
  have hprep : ∀ (s : Sys) (u : String), Inv2 s →
      (loadPrep u s).ps.hls = none ∧ (loadPrep u s).ps.liveDecoders = 0 := by
    intro s u h
    have h1 : Inv2 { s with ps := { s.ps with url := u } } := by
      unfold Inv2 at h ⊢
      simpa using h
    have hc := cleanup_spec _ h1
    unfold loadPrep
    exact ⟨hc.1, hc.2⟩
  have hmain : ∀ (s : Sys) (u : String), Inv2 s →
      (load u s).ps.hls = some u ∧ (load u s).ps.liveDecoders = 1 := by
    intro s u h
    obtain ⟨hh, hl⟩ := hprep s u h
    unfold load
    constructor
    · rw [startFreezeDetection_hls]
      simp [loadHLS]
    · rw [startFreezeDetection_live]
      simp [loadHLS, hl]
  have hinv : ∀ (s : Sys) (u : String), Inv2 s → Inv2 (load u s) := by
    intro s u h
    obtain ⟨h1, h2⟩ := hmain s u h
    unfold Inv2
    rw [h1, h2]
    rfl
  refine ⟨?_, ?_, ?_⟩
  · intro s u h
    obtain ⟨p1, p2⟩ := hprep s u h
    obtain ⟨m1, m2⟩ := hmain s u h
    exact ⟨p1, p2, m1, m2, hinv s u h⟩
  · intro s urls
    induction urls generalizing s with
    | nil => intro h; exact h
    | cons u t ih =>
        intro h
        exact ih (load u s) (hinv s u h)
  · intro a b
    have h0 : Inv2 sysInit := by unfold Inv2; decide
    exact hmain (load a sysInit) b (hinv sysInit a h0)

/-- Witness for C2 at concrete urls. -/
theorem at_most_one_attachment_witness :
    ((loadPrep "a" sysInit).ps.hls = none ∧
     (loadPrep "a" sysInit).ps.liveDecoders = 0 ∧
     (load "a" sysInit).ps.hls = some "a" ∧
     (load "a" sysInit).ps.liveDecoders = 1 ∧
     Inv2 (load "a" sysInit)) ∧
    Inv2 (["a", "b"].foldl (fun x u => load u x) sysInit) ∧
    ((load "b" (load "a" sysInit)).ps.hls = some "b" ∧
     (load "b" (load "a" sysInit)).ps.liveDecoders = 1) :=
  ⟨at_most_one_attachment.1 sysInit "a" (by unfold Inv2; decide),
   at_most_one_attachment.2.1 sysInit ["a", "b"] (by unfold Inv2; decide),
   at_most_one_attachment.2.2 "a" "b"⟩

/-- C3 counterexample: a loaded session whose sink is paused with
readiness 3 receives no liveness-bearing event for 39 seconds; each 3s
detection cycle rearms the 30s freshness timer (readiness > 0, not
recovering), so no timeout ever fires: the log still holds only the
initial decoder attachment (no `onError` of any kind) and the session
is not destroyed, refuting the claim that >30s without liveness always
produces the timeout error and destruction. -/
theorem freshness_timeout_counterexample :
    c3run.now = 39000 ∧
    c3run.ps.lastUpdateTime = 0 ∧
    c3run.log = [Act.hlsCreate "u"] ∧
    c3run.ps.hls = some "u" := by
  decide

/-- C3 amended: the freshness timeout only fires when its timer expires
un-rearmed (the 3s detection cycle rearms it whenever decoder readiness
is positive and no recovery is in progress, e.g. forever for a paused
session holding data); when the timer handler does run with more than
30s since the last liveness event and no recovery in progress, it
invokes `onError('Stream timeout - camera offline')` and destroys the
session — regardless of `recoveryAttemptCount`, which the handler never
consults. -/
theorem freshness_timeout_amended (s : Sys)
    (h1 : s.now - s.ps.lastUpdateTime > 30000)
    (h2 : s.ps.isRecovering = false) :
    (freshnessFire s).ps.hls = none ∧
    (freshnessFire s).ps.freezeIntervalId = none ∧
    (freshnessFire s).ps.timeoutId = none ∧
    ∃ t, (freshnessFire s).log =
        s.log ++ Act.onError "Stream timeout - camera offline" :: t := by
  unfold freshnessFire
  rw [if_pos ⟨h1, h2⟩]
  refine ⟨destroy_hls _, destroy_fid _, destroy_tid _, ?_⟩
  obtain ⟨t, ht⟩ :=
    destroy_log_append (emit s (.onError "Stream timeout - camera offline"))
  exact ⟨t, by simpa using ht⟩

/-- Witness for the amended C3 at a session with attempt counter 0. -/
theorem freshness_timeout_amended_witness :
    (freshnessFire c3wit).ps.hls = none ∧
    (freshnessFire c3wit).ps.freezeIntervalId = none ∧
    (freshnessFire c3wit).ps.timeoutId = none ∧
    ∃ t, (freshnessFire c3wit).log =
        c3wit.log ++ Act.onError "Stream timeout - camera offline" :: t :=
  freshness_timeout_amended c3wit (by decide) (by decide)

/-- C4: a recovery attempt entered at counter value k (post-increment)
schedules — and does not yet execute: the log is unchanged — exactly
one backoff timer due `min(1000 * 2^(k-1), 10000)` ms later, computed
from the counter at entry; and when that timer fires, the strategy is
chosen from the counter: soft reload at 1, hard reload at 2, full
reset otherwise. -/
theorem recovery_ladder_policy :
    (∀ (s : Sys) (k : Nat), s.ps.isRecovering = false →
        s.ps.recoveryAttempts + 1 = k → k ≤ 3 →
        (attemptRecovery s).ps.recoveryAttempts = k ∧
        (attemptRecovery s).log = s.log ∧
        (attemptRecovery s).timers =
          s.timers ++
            [⟨s.nextId, s.now + min (1000 * 2 ^ (k - 1)) 10000, .backoff⟩]) ∧
    (∀ (s : Sys) (k : Nat), s.ps.recoveryAttempts = k →
        backoffFire s =
          schedule .settle 5000
            (if k = 1 then softReload s
             else if k = 2 then hardReload s
             else fullReset s)) := by
  constructor
  · intro s k hr hk hk3
    have hlt : s.ps.recoveryAttempts < 3 := by omega
    rw [attemptRecovery_step s hr hlt]
    refine ⟨?_, ?_, ?_⟩
    · simp
      omega
    · simp
    · have h2 : s.ps.recoveryAttempts = k - 1 := by omega
      simp [h2]
  · intro s k hk
    unfold backoffFire
    rw [hk]

/-- Witness for C4 at attempt 2. -/
theorem recovery_ladder_policy_witness :
    ((attemptRecovery sA1).ps.recoveryAttempts = 2 ∧
     (attemptRecovery sA1).log = sA1.log ∧
     (attemptRecovery sA1).timers =
       sA1.timers ++
         [⟨sA1.nextId, sA1.now + min (1000 * 2 ^ (2 - 1)) 10000, .backoff⟩]) ∧
    backoffFire sA2 =
      schedule .settle 5000
        (if 2 = 1 then softReload sA2
         else if 2 = 2 then hardReload sA2
         else fullReset sA2) :=
  ⟨recovery_ladder_policy.1 sA1 2 (by decide) (by decide) (by decide),
   recovery_ladder_policy.2 sA2 2 (by decide)⟩

/-- C5 counterexample: `destroy()` is called while the attempt-1
recovery backoff timer (scheduled before the destroy) is pending; the
timer survives the destroy and, when it fires, executes the soft-reload
remediation against the torn-down session: `video.load()`, a seek and
`video.play()` — sink mutations after `destroy()` returned.  This
refutes the claim that every timer scheduled before `destroy()` is
canceled or fires as a no-op. -/
theorem destroy_pending_timer_counterexample :
    c5beforeDestroy.ps.isRecovering = true ∧
    c5afterDestroy.ps.hls = none ∧
    c5afterDestroy.timers = [⟨4, 10000, .backoff⟩] ∧
    c5fired.log.drop c5afterDestroy.log.length =
      [Act.videoLoad, Act.videoSeek 5000, Act.videoPlay] := by
  decide

/-- C5 amended: `destroy()` cancels exactly the detection-cycle
interval and the freshness timeout (a timer remains pending after
`destroy()` if and only if it was pending before and is neither of
those two); recovery timers (backoff, hard-reload and full-reset
delays) are not canceled and not guarded, and a surviving backoff timer
still performs sink mutations when it fires, as the concrete run
shows. -/
theorem destroy_cancellation_amended (s : Sys) :
    (destroy s).ps.freezeIntervalId = none ∧
    (destroy s).ps.timeoutId = none ∧
    (∀ tm : Timer, tm ∈ (destroy s).timers ↔
        (tm ∈ s.timers ∧ s.ps.freezeIntervalId ≠ some tm.id ∧
         s.ps.timeoutId ≠ some tm.id)) ∧
    c5fired.log.drop c5afterDestroy.log.length =
      [Act.videoLoad, Act.videoSeek 5000, Act.videoPlay] := by
  refine ⟨destroy_fid s, destroy_tid s, ?_, by decide⟩
  intro tm
  rw [destroy_timers_eq, mem_cancelTimer, mem_cancelTimer]
  tauto

/-- C6 counterexample: a fatal network-classified decoder error with a
non-timeout detail invokes the graduated recovery ladder, incrementing
its attempt counter from 0 to 1 — refuting the claim that
network-classified fatal errors resume fetching without incrementing
the ladder's attempt counter. -/
theorem fatal_error_counterexample :
    c6s.ps.recoveryAttempts = 0 ∧
    (step c6s (.hlsError true .network "levelLoadError")).ps.recoveryAttempts
      = 1 := by
  decide

/-- C6 amended: a fatal network error with a timeout/load-failure
detail invokes `onError('Stream timeout - camera offline')` and
destroys the session; any other fatal network error invokes the
recovery ladder (incrementing its counter when idle and below the
bound); a fatal media error invokes the decoder's built-in media-error
recovery and arms a 2s grace timer which, when the decoder is still
attached, invokes `onError('Media error - camera offline')` and
destroys the session (no escalation to the ladder); any other fatal
error type immediately invokes `onError('Fatal stream error - camera
offline')` and destroys the session. -/
theorem fatal_error_policy_amended :
    (∀ (s : Sys) (d : String), networkTimeoutDetails.contains d = true →
        handleHLSError true .network d s =
          destroy (emit s (.onError "Stream timeout - camera offline"))) ∧
    (∀ (s : Sys) (d : String), networkTimeoutDetails.contains d = false →
        handleHLSError true .network d s = attemptRecovery s) ∧
    (∀ (s : Sys) (d : String), networkTimeoutDetails.contains d = false →
        s.ps.isRecovering = false → s.ps.recoveryAttempts < 3 →
        (handleHLSError true .network d s).ps.recoveryAttempts =
          s.ps.recoveryAttempts + 1) ∧
    (∀ (s : Sys) (d : String),
        handleHLSError true .media d s =
          schedule (.mediaGrace true) 2000
            (if s.ps.hls.isSome then emit s .recoverMediaError else s)) ∧
    (∀ s : Sys, s.ps.hls.isSome = true →
        mediaGraceFire true s =
          destroy (emit s (.onError "Media error - camera offline"))) ∧
    (∀ (s : Sys) (d : String),
        handleHLSError true .other d s =
          destroy (emit s (.onError "Fatal stream error - camera offline"))) := by
  have hnet : ∀ (s : Sys) (d : String),
      networkTimeoutDetails.contains d = false →
      handleHLSError true .network d s = attemptRecovery s := by
    intro s d hd
    unfold handleHLSError
    rw [if_pos rfl]
    dsimp only
    rw [if_neg (by rw [hd]; simp)]
  refine ⟨?_, hnet, ?_, ?_, ?_, ?_⟩
  · intro s d hd
    unfold handleHLSError
    rw [if_pos rfl]
    dsimp only
    rw [if_pos hd]
  · intro s d hd hr hlt
    rw [hnet s d hd]
    rw [attemptRecovery_step s hr hlt]
    simp
  · intro s d
    simp [handleHLSError]
  · intro s hs
    simp [mediaGraceFire, hs]
  · intro s d
    simp [handleHLSError]

/-- Witness for the amended C6 at a concrete attached idle session. -/
theorem fatal_error_policy_amended_witness :
    handleHLSError true .network "fragLoadTimeOut" c6s =
      destroy (emit c6s (.onError "Stream timeout - camera offline")) ∧
    handleHLSError true .network "levelLoadError" c6s = attemptRecovery c6s ∧
    (handleHLSError true .network "levelLoadError" c6s).ps.recoveryAttempts =
      c6s.ps.recoveryAttempts + 1 ∧
    handleHLSError true .media "bufferStallError" c6s =
      schedule (.mediaGrace true) 2000
        (if c6s.ps.hls.isSome then emit c6s .recoverMediaError else c6s) ∧
    mediaGraceFire true c6s =
      destroy (emit c6s (.onError "Media error - camera offline")) ∧
    handleHLSError true .other "unknown" c6s =
      destroy (emit c6s (.onError "Fatal stream error - camera offline")) :=
  ⟨fatal_error_policy_amended.1 c6s _ (by decide),
   fatal_error_policy_amended.2.1 c6s _ (by decide),
   fatal_error_policy_amended.2.2.1 c6s _ (by decide) (by decide) (by decide),
   fatal_error_policy_amended.2.2.2.1 c6s _,
   fatal_error_policy_amended.2.2.2.2.1 c6s (by decide),
   fatal_error_policy_amended.2.2.2.2.2 c6s _⟩

/-- C10: the `FRAG_LOADED` event unconditionally (in particular even
mid-recovery: `isRecovering` is untouched) resets the attempt counter
and the consecutive-freeze counter to 0 and refreshes liveness; and
from an exhausted session (counter 3), a single delivered fragment
re-enables three further automatic recovery attempts without
`forceReload`: the concrete chain executes soft reload, hard reload
(decoder destroyed and re-created) and schedules the third attempt's
backoff, the counter passing through 0, 1, 2, 3. -/
theorem frag_loaded_reenables_recovery :
    (∀ s : Sys, s.ps.hls.isSome = true →
        (fragLoadedStep s).ps.recoveryAttempts = 0 ∧
        (fragLoadedStep s).ps.consecutiveFreezeDetections = 0 ∧
        (fragLoadedStep s).ps.lastUpdateTime = s.now ∧
        (fragLoadedStep s).ps.isRecovering = s.ps.isRecovering) ∧
    (sExhausted.ps.recoveryAttempts = 3 ∧
     c10a.ps.recoveryAttempts = 0 ∧
     c10b.ps.recoveryAttempts = 1 ∧
     Act.hlsStopLoad ∈ c10c.log ∧
     c10e.ps.recoveryAttempts = 2 ∧
     Act.hlsDestroyAct ∈ c10f.log ∧
     Act.hlsCreate "u" ∈ c10g.log ∧
     c10i.ps.recoveryAttempts = 3 ∧
     c10i.timers = [⟨5, 117000, .backoff⟩]) := by
  constructor
  · intro s hs
    simp [fragLoadedStep, hs]
  · decide

/-- Witness for C10 at the exhausted session. -/
theorem frag_loaded_reenables_recovery_witness :
    (fragLoadedStep sExhausted).ps.recoveryAttempts = 0 ∧
    (fragLoadedStep sExhausted).ps.consecutiveFreezeDetections = 0 ∧
    (fragLoadedStep sExhausted).ps.lastUpdateTime = sExhausted.now ∧
    (fragLoadedStep sExhausted).ps.isRecovering = sExhausted.ps.isRecovering :=
  frag_loaded_reenables_recovery.1 sExhausted (by decide)

end StreamMonitor
